import Mathlib

/-!
Verification development for the sqlclz typed query-expression and
statement compiler.  The repository's surviving source is the dynamic
function-wrapper generator (`func_dec.py`); the Expression/Statement
builder, schema registry and SQL renderer are modelled from the
specification where their source is not available.
-/

namespace Sqlclz

/-- A SQL storage value as the engine round-trips it. -/
inductive SqlValue where
  | int (i : Int)
  | text (s : String)
  | bool (b : Bool)
  | null
deriving DecidableEq, Repr

/-- A row is an ordered list of values, one per projected column. -/
abbrev Row := List SqlValue

/-- SQL storage classes used in column declarations. -/
inductive SqlType where
  | integer
  | text
  | boolean
  | real
  | blob
deriving DecidableEq, Repr

/-- Modelled from the spec: a column of a registered table schema — name,
storage class, nullability, and an optional default literal (§3, §4.1). -/
structure ColumnDef where
  name : String
  type : SqlType
  notNull : Bool
  default : Option SqlValue
deriving DecidableEq, Repr

/-- Modelled from the spec: a registered table schema — table name and
ordered column list (§3 Table Schema). -/
structure TableSchema where
  name : String
  cols : List ColumnDef
deriving DecidableEq, Repr

/-- Render a storage class keyword in DDL. -/
def renderType : SqlType → String
  | .integer => "INTEGER"
  | .text => "TEXT"
  | .boolean => "BOOLEAN"
  | .real => "REAL"
  | .blob => "BLOB"

/-- Modelled from the spec: a default literal in DDL — boolean defaults
render as the tokens True/False, strings are quoted, NULL renders as the
keyword (§4.4). -/
def renderDefault : SqlValue → String
  | .int i => toString i
  | .text s => "\x27" ++ s ++ "\x27"
  | .bool b => if b then "True" else "False"
  | .null => "NULL"

/-- Modelled from the spec: one column definition line of CREATE TABLE —
bracket-quoted name, storage class, NOT NULL omitted only when nullable,
then DEFAULT literal when present (§4.4, §4.7). -/
def renderColumn (c : ColumnDef) : String :=
  "    [" ++ c.name ++ "] " ++ renderType c.type
    ++ (if c.notNull then " NOT NULL" else "")
    ++ (match c.default with
        | none => ""
        | some v => " DEFAULT " ++ renderDefault v)

/-- Modelled from the spec: the CREATE TABLE renderer for a schema with no
table constraints — one column per schema entry, comma-separated (§4.4,
DDL text contract §6). -/
def createTableDDL (t : TableSchema) : String :=
  "CREATE TABLE " ++ t.name ++ " (\n"
    ++ String.intercalate " ,\n" (t.cols.map renderColumn)
    ++ "\n)"

/-- Modelled from the spec: derivation of a column from a declared record
field — absent default gives a NOT NULL column without default, a None
default gives a nullable column with DEFAULT NULL, any other default gives
a NOT NULL column with that default (§4.1, §4.4). -/
def fieldToColumn (n : String) (ty : SqlType) (d : Option (Option SqlValue)) : ColumnDef :=
  match d with
  | none => ⟨n, ty, true, none⟩
  | some none => ⟨n, ty, false, some .null⟩
  | some (some v) => ⟨n, ty, true, some v⟩

/-- The schema of the spec's representative table
A(a:int, b:int=0, c:str=empty, d:bool=True, e:bool=False, f:str=None). -/
def schemaA : TableSchema :=
  ⟨"A",
   [fieldToColumn "a" .integer none,
    fieldToColumn "b" .integer (some (some (.int 0))),
    fieldToColumn "c" .text (some (some (.text ""))),
    fieldToColumn "d" .boolean (some (some (.bool true))),
    fieldToColumn "e" .boolean (some (some (.bool false))),
    fieldToColumn "f" .text (some none)]⟩

/-- Modelled from the spec: completing a partial row at INSERT — a column
not supplied by the caller takes its declared default, or NULL when the
column has none (§4.4, §8 DDL exactness round-trip). -/
def fillDefaults (cols : List ColumnDef) (given : List (String × SqlValue)) : Row :=
  cols.map fun c =>
    match given.lookup c.name with
    | some v => v
    | none =>
      match c.default with
      | some (.null) => .null
      | some v => v
      | none => .null

/-- Modelled from the spec: a table's stored rows; INSERT appends, SELECT
returns the stored rows in insertion order (§6 execution boundary). -/
def insertRow (rows : List Row) (r : Row) : List Row :=
  rows ++ [r]

/-- Modelled from the spec: fetchone returns the first row of the result. -/
def fetchone (rows : List Row) : Option Row :=
  rows.head?

/-- The literal DDL text of the spec's CREATE TABLE contract (§6). -/
def ddlContractText : String :=
  "CREATE TABLE A (\n    [a] INTEGER NOT NULL ,\n    [b] INTEGER NOT NULL DEFAULT 0 ,\n    [c] TEXT NOT NULL DEFAULT \x27\x27 ,\n    [d] BOOLEAN NOT NULL DEFAULT True ,\n    [e] BOOLEAN NOT NULL DEFAULT False ,\n    [f] TEXT DEFAULT NULL\n)"

/-- Claim C1: building CREATE TABLE for the schema
(a:int, b:int=0, c:str=empty, d:bool=True, e:bool=False, f:str=None)
produces exactly the contract DDL text, and inserting a row supplying only
a=1 then selecting it back yields the row (1, 0, empty, True, False, None). -/
theorem C1_create_table_default_roundtrip :
    createTableDDL schemaA = ddlContractText
    ∧ fetchone (insertRow [] (fillDefaults schemaA.cols [("a", .int 1)]))
        = some [.int 1, .int 0, .text "", .bool true, .bool false, .null] := by
  constructor
  · rfl
  · rfl

/-- A caller-side value appearing on the right of a comparison: a scalar
of one of the engine domains, the NULL sentinel, or a value of an
unrelated, non-scalar domain (a bare object). -/
inductive PyValue where
  | int (i : Int)
  | text (s : String)
  | bool (b : Bool)
  | pyNone
  | object
deriving DecidableEq, Repr

/-- Modelled from the spec: domain compatibility of a comparison — a value
of an unrelated non-scalar domain is compatible with no column domain
(§4.2 Construction Error). -/
def compatible : SqlType → PyValue → Bool
  | .integer, .int _ => true
  | .text, .text _ => true
  | .boolean, .bool _ => true
  | .boolean, .int _ => true
  | _, .pyNone => true
  | _, _ => false

/-- A WHERE predicate: a comparison of a column (by index, with its
declared domain) against a caller value, or a conjunction. -/
inductive WherePred where
  | compare (col : Nat) (ty : SqlType) (v : PyValue)
  | conj (p q : WherePred)
deriving DecidableEq, Repr

/-- Whether the predicate contains a comparison against a value of an
incompatible domain. -/
def predIllTyped : WherePred → Bool
  | .compare _ ty v => !compatible ty v
  | .conj p q => predIllTyped p || predIllTyped q

/-- Convert a compatible caller scalar to its stored value. -/
def pyToSql : PyValue → SqlValue
  | .int i => .int i
  | .text s => .text s
  | .bool b => .bool b
  | .pyNone => .null
  | .object => .null

/-- Evaluate a predicate over a row (only ever reached for well-typed
predicates). -/
def evalPred (r : Row) : WherePred → Bool
  | .compare col _ v => r.get? col = some (pyToSql v)
  | .conj p q => evalPred r p && evalPred r q

/-- Modelled from the spec: render a well-typed predicate, literals as
placeholder parameters (§4.7). -/
def renderPred : WherePred → String
  | .compare col _ _ => "c" ++ toString col ++ " = ?"
  | .conj p q => renderPred p ++ " AND " ++ renderPred q

/-- A statement whose WHERE clause may mutate or read the table. -/
inductive Stat where
  | deleteFrom (w : WherePred)
  | updateSet (col : Nat) (v : SqlValue) (w : WherePred)
deriving DecidableEq, Repr

/-- The WHERE predicate of a statement. -/
def Stat.wherePred : Stat → WherePred
  | .deleteFrom w => w
  | .updateSet _ _ w => w

/-- Modelled from the spec: build() runs the Constraint Validator before
any SQL text is produced — a type-incompatible comparison aborts with a
Construction Error and no SQL text (§4.2, §7). -/
def buildStat (s : Stat) : Except String String :=
  if predIllTyped s.wherePred then
    .error "Construction Error: type-incompatible comparison"
  else
    match s with
    | .deleteFrom w => .ok ("DELETE WHERE " ++ renderPred w)
    | .updateSet col _ w =>
        .ok ("UPDATE SET c" ++ toString col ++ " = ? WHERE " ++ renderPred w)

/-- Execute a successfully built statement against the stored rows. -/
def execStat (db : List Row) : Stat → List Row
  | .deleteFrom w => db.filter fun r => !evalPred r w
  | .updateSet col v w =>
      db.map fun r => if evalPred r w then r.set col v else r

/-- Modelled from the spec: submitting a statement — a validation failure
aborts build() immediately with no partial output, leaving the database
state unchanged (§5, §7). -/
def submitStat (db : List Row) (s : Stat) : List Row × Option String :=
  match buildStat s with
  | .error e => (db, some e)
  | .ok _ => (execStat db s, none)

/-- Modelled from the spec: SELECT with no WHERE returns every stored row
unmodified, in insertion order. -/
def selectAll (db : List Row) : List Row := db

/-- Claim C2: a statement whose WHERE predicate compares a column to a
value of an unrelated non-scalar domain fails at build() with a
Construction Error before any SQL text is produced, and the database state
afterward is unchanged: a subsequent SELECT returns every previously
inserted row unmodified. -/
theorem C2_ill_typed_compare_fails_at_build (db : List Row) (s : Stat)
    (h : predIllTyped s.wherePred = true) :
    buildStat s = .error "Construction Error: type-incompatible comparison"
    ∧ submitStat db s = (db, some "Construction Error: type-incompatible comparison")
    ∧ selectAll (submitStat db s).1 = db := by
  have hb : buildStat s = .error "Construction Error: type-incompatible comparison" := by
    unfold buildStat
    rw [h]
    rfl
  refine ⟨hb, ?_, ?_⟩
  · unfold submitStat
    rw [hb]
  · unfold submitStat
    rw [hb]
    rfl

/-- Witness for C2: the concrete scenario of the test — rows (a,1) and
(b,2) inserted, then a DELETE whose WHERE compares column a of TEXT domain
to a bare object fails at build and leaves both rows selectable. -/
theorem C2_ill_typed_compare_fails_at_build_witness :
    predIllTyped (Stat.deleteFrom (.compare 0 .text .object)).wherePred = true
    ∧ selectAll
        (submitStat [[.text "a", .text "1"], [.text "b", .text "2"]]
          (Stat.deleteFrom (.compare 0 .text .object))).1
      = [[.text "a", .text "1"], [.text "b", .text "2"]] :=
  ⟨by decide,
   (C2_ill_typed_compare_fails_at_build
      [[.text "a", .text "1"], [.text "b", .text "2"]]
      (Stat.deleteFrom (.compare 0 .text .object)) (by decide)).2.2⟩

/-- Remove duplicate rows, keeping the first occurrence of each. -/
def dedupAux (seen : List Row) : List Row → List Row
  | [] => []
  | a :: l => if a ∈ seen then dedupAux seen l else a :: dedupAux (a :: seen) l

/-- DISTINCT over a result list, preserving first-occurrence order. -/
def distinctRows (l : List Row) : List Row := dedupAux [] l

/-- The four set-operation kinds of a combined statement. -/
inductive SetOpKind where
  | union
  | unionAll
  | intersect
  | exceptOp
deriving DecidableEq, Repr

/-- Modelled from the spec: semantics of one set operation on the operand
result lists — UNION ALL concatenates preserving input order, the distinct
forms deduplicate (§4.5). -/
def evalSetOp : SetOpKind → List Row → List Row → List Row
  | .union, a, b => distinctRows (a ++ b)
  | .unionAll, a, b => a ++ b
  | .intersect, a, b => distinctRows (a.filter fun r => r ∈ b)
  | .exceptOp, a, b => distinctRows (a.filter fun r => r ∉ b)

/-- A SELECT operand: its projected column names and its result rows. -/
structure SelectStat where
  colNames : List String
  rows : List Row
deriving DecidableEq, Repr

/-- A statement that may be a combined set-operation statement. -/
inductive Statement where
  | simple (s : SelectStat)
  | setop (k : SetOpKind) (l r : Statement)
deriving DecidableEq, Repr

/-- Evaluate a (possibly combined) statement to its result rows; set
operations chain left-to-right (§4.5). -/
def evalStatement : Statement → List Row
  | .simple s => s.rows
  | .setop k l r => evalSetOp k (evalStatement l) (evalStatement r)

/-- Modelled from the spec: the | operator on statements denotes UNION
(distinct) (§4.5). -/
def operUnion (a b : Statement) : Statement := .setop .union a b

/-- Modelled from the spec: the & operator on statements denotes
INTERSECT (§4.5). -/
def operIntersect (a b : Statement) : Statement := .setop .intersect a b

/-- Modelled from the spec: the - operator on statements denotes EXCEPT
(§4.5). -/
def operExcept (a b : Statement) : Statement := .setop .exceptOp a b

/-- Modelled from the spec: the union method — all=True gives UNION ALL,
otherwise UNION distinct (§4.5). -/
def unionMethod (a b : Statement) (all : Bool) : Statement :=
  .setop (if all then .unionAll else .union) a b

/-- The single-column table T1 holding rows 1, 2, 3. -/
def statT1 : Statement := .simple ⟨["v1"], [[.int 1], [.int 2], [.int 3]]⟩

/-- The single-column table T2 holding rows 2, 3, 4. -/
def statT2 : Statement := .simple ⟨["v2"], [[.int 2], [.int 3], [.int 4]]⟩

/-- Claim C3: over T1 holding 1,2,3 and T2 holding 2,3,4, the | combination
returns exactly the distinct rows 1,2,3,4; union with all=True returns
1,2,3,2,3,4 with duplicates preserved in input order; and the operators
|, &, - evaluate as UNION distinct, INTERSECT and EXCEPT respectively. -/
theorem C3_set_operations :
    evalStatement (operUnion statT1 statT2) = [[.int 1], [.int 2], [.int 3], [.int 4]]
    ∧ evalStatement (unionMethod statT1 statT2 true)
        = [[.int 1], [.int 2], [.int 3], [.int 2], [.int 3], [.int 4]]
    ∧ (∀ a b, evalStatement (operUnion a b)
        = distinctRows (evalStatement a ++ evalStatement b))
    ∧ (∀ a b, evalStatement (operIntersect a b)
        = distinctRows ((evalStatement a).filter fun r => r ∈ evalStatement b))
    ∧ (∀ a b, evalStatement (operExcept a b)
        = distinctRows ((evalStatement a).filter fun r => r ∉ evalStatement b))
    ∧ evalStatement (operIntersect statT1 statT2) = [[.int 2], [.int 3]]
    ∧ evalStatement (operExcept statT1 statT2) = [[.int 1]] := by
  refine ⟨by decide, by decide, ?_, ?_, ?_, by decide, by decide⟩
  · intro a b
    rfl
  · intro a b
    rfl
  · intro a b
    rfl

/-- A join predicate: an equality between a left-table column and a
right-table column, or a conjunction of such equalities. -/
inductive JoinPred where
  | eqCols (li ri : Nat)
  | conjJP (p q : JoinPred)
deriving DecidableEq, Repr

/-- Evaluate a join predicate over a pair of rows. -/
def evalJoinPred (l r : Row) : JoinPred → Bool
  | .eqCols i j => decide (l.get? i = r.get? j)
  | .conjJP p q => evalJoinPred l r p && evalJoinPred l r q

/-- Modelled from the spec: the predicate synthesized from a foreign-key
constraint — the conjunction of equality comparisons between corresponding
columns in constraint-declared order (§4.3). -/
def mkConjFK : List (Nat × Nat) → JoinPred
  | [] => .eqCols 0 0
  | [p] => .eqCols p.1 p.2
  | p :: rest => .conjJP (.eqCols p.1 p.2) (mkConjFK rest)

/-- One equality comparison between corresponding columns of two rows. -/
def colEq (l r : Row) (p : Nat × Nat) : Bool :=
  decide (l.get? p.1 = r.get? p.2)

/-- INNER JOIN of two row lists under a join predicate: each matching pair
contributes the concatenated row, left rows outermost. -/
def innerJoin (t1 t2 : List Row) (p : Row → Row → Bool) : List Row :=
  t1.flatMap fun l => (t2.filter fun r => p l r).map fun r => l ++ r

/-- Modelled from the spec: joining on a bare table reference resolves the
foreign-key candidates — exactly one candidate synthesizes its predicate,
zero or several is a Resolution Error (§4.3). -/
def joinByForeignRef (t1 t2 : List Row) (cands : List (List (Nat × Nat))) :
    Except String (List Row) :=
  match cands with
  | [fk] => .ok (innerJoin t1 t2 fun l r => evalJoinPred l r (mkConjFK fk))
  | [] => .error "Resolution Error: no candidate foreign key"
  | _ => .error "Resolution Error: ambiguous foreign key"

/-- The synthesized conjunction evaluates exactly as the explicit
column-by-column equality predicate, for a nonempty constraint. -/
theorem evalJoinPred_mkConjFK (fk : List (Nat × Nat)) (hne : fk ≠ []) (l r : Row) :
    evalJoinPred l r (mkConjFK fk) = fk.all (colEq l r) := by
  induction fk with
  | nil => exact absurd rfl hne
  | cons p rest ih =>
      cases rest with
      | nil => simp [mkConjFK, evalJoinPred, colEq, List.all]
      | cons q rest2 =>
          simp only [mkConjFK, evalJoinPred, List.all_cons]
          rw [ih (by simp)]
          simp [colEq]

/-- Claim C4: for a table pair connected by exactly one foreign-key
constraint, the inner join built from the bare foreign-constraint
reference succeeds with the predicate synthesized as the conjunction of
column equalities in constraint-declared order, and its result set equals
the inner join built from the explicit equality predicate between the
corresponding columns. -/
theorem C4_fk_join_equivalence (t1 t2 : List Row)
    (cands : List (List (Nat × Nat))) (fk : List (Nat × Nat))
    (hc : cands = [fk]) (hne : fk ≠ []) :
    joinByForeignRef t1 t2 cands
        = .ok (innerJoin t1 t2 fun l r => evalJoinPred l r (mkConjFK fk))
    ∧ innerJoin t1 t2 (fun l r => evalJoinPred l r (mkConjFK fk))
        = innerJoin t1 t2 (fun l r => fk.all (colEq l r)) := by
  constructor
  · rw [hc]
    rfl
  · have hp : (fun l r => evalJoinPred l r (mkConjFK fk))
        = fun l r => fk.all (colEq l r) := by
      funext l r
      exact evalJoinPred_mkConjFK fk hne l r
    rw [hp]

/-- Two-row demonstration tables for C4: albums rows are (Title, ArtistId),
artists rows are (ArtistId, Name); one foreign key links album column 1 to
artist column 0. -/
def demoAlbums : List Row :=
  [[.text "A1", .int 10], [.text "A2", .int 20]]

/-- The artists side of the C4 demonstration pair. -/
def demoArtists : List Row :=
  [[.int 10, .text "X"], [.int 30, .text "Z"]]

/-- Witness for C4: with the single foreign key linking album column 1 to
artist column 0, the foreign-reference join and the explicit-equality join
agree, yielding exactly the single matching concatenated row. -/
theorem C4_fk_join_equivalence_witness :
    joinByForeignRef demoAlbums demoArtists [[(1, 0)]]
        = .ok (innerJoin demoAlbums demoArtists fun l r => [(1, 0)].all (colEq l r))
    ∧ innerJoin demoAlbums demoArtists (fun l r => [(1, 0)].all (colEq l r))
        = [[.text "A1", .int 10, .int 10, .text "X"]] := by
  have h := C4_fk_join_equivalence demoAlbums demoArtists [[(1, 0)]] [(1, 0)]
    rfl (by decide)
  refine ⟨h.1.trans (congrArg Except.ok h.2), by decide⟩

/-- Conflict test of an upsert: the incoming row agrees with an existing
row on every primary-key column. -/
def rowConflict (pk : List Nat) (a b : Row) : Bool :=
  pk.all fun i => decide (a.get? i = b.get? i)

/-- Modelled from the spec: the do_update branch of an upsert rewrites only
the targeted columns of the existing row, taking each targeted value from
the excluded (would-have-been-inserted) row (§4.4, §8). -/
def updateTargeted (upd : List Nat) (excludedRow : Row) : Nat → Row → Row
  | _, [] => []
  | i, v :: rest =>
      (if i ∈ upd then (excludedRow.get? i).getD v else v)
        :: updateTargeted upd excludedRow (i + 1) rest

/-- Modelled from the spec: INSERT ... ON CONFLICT(pk) DO UPDATE — on a
key conflict the existing row's targeted columns are updated from the
excluded row; otherwise the row is inserted (§4.4). -/
def upsertDoUpdate (pk upd : List Nat) (rows : List Row) (incoming : Row) :
    List Row :=
  if rows.any (rowConflict pk incoming) then
    rows.map fun r =>
      if rowConflict pk incoming r then updateTargeted upd incoming 0 r else r
  else rows ++ [incoming]

/-- Modelled from the spec: INSERT ... ON CONFLICT DO NOTHING — on a
conflict the existing rows are left entirely unchanged (§4.4). -/
def upsertDoNothing (pk : List Nat) (rows : List Row) (incoming : Row) :
    List Row :=
  if rows.any (rowConflict pk incoming) then rows else rows ++ [incoming]

/-- The Person table rows of the upsert scenario: (Alice, 18), (Bob, 20),
with the name in column 0 as primary key and the age in column 1. -/
def personRows : List Row :=
  [[.text "Alice", .int 18], [.text "Bob", .int 20]]

/-- The conflicting incoming row (Alice, 28) of the upsert scenario. -/
def personIncoming : Row := [.text "Alice", .int 28]

/-- Claim C5: on a primary-key conflict, do_update rewrites only the
targeted column of the conflicting existing row to the excluded row's
value (non-conflicting rows and non-targeted columns untouched), while
do_nothing leaves the stored rows entirely unchanged; concretely, Alice's
age becomes 28 under do_update and stays 18 under do_nothing. -/
theorem C5_upsert_semantics (pk upd : List Nat) (rows : List Row)
    (incoming : Row) (h : rows.any (rowConflict pk incoming) = true) :
    upsertDoNothing pk rows incoming = rows
    ∧ upsertDoUpdate pk upd rows incoming
        = rows.map (fun r =>
            if rowConflict pk incoming r then updateTargeted upd incoming 0 r
            else r)
    ∧ upsertDoUpdate [0] [1] personRows personIncoming
        = [[.text "Alice", .int 28], [.text "Bob", .int 20]]
    ∧ upsertDoNothing [0] personRows personIncoming = personRows := by
  refine ⟨?_, ?_, by decide, by decide⟩
  · unfold upsertDoNothing
    rw [h]
    rfl
  · unfold upsertDoUpdate
    rw [h]
    rfl

/-- Witness for C5: the Person scenario itself satisfies the conflict
hypothesis, and both upsert branches compute the claimed tables. -/
theorem C5_upsert_semantics_witness :
    upsertDoUpdate [0] [1] personRows personIncoming
        = [[.text "Alice", .int 28], [.text "Bob", .int 20]]
    ∧ upsertDoNothing [0] personRows personIncoming = personRows :=
  ⟨(C5_upsert_semantics [0] [1] personRows personIncoming (by decide)).2.2.1,
   (C5_upsert_semantics [0] [1] personRows personIncoming (by decide)).2.2.2⟩

/-- Insert into a list sorted by the given total preorder (stable). -/
def insertBy (le : α → α → Bool) (a : α) : List α → List α
  | [] => [a]
  | b :: l => if le a b then a :: b :: l else b :: insertBy le a l

/-- Stable insertion sort by the given total preorder. -/
def sortBy (le : α → α → Bool) (l : List α) : List α :=
  l.foldr (insertBy le) []

/-- A fixed total preorder on storage values used by ORDER BY: NULL first,
then integers, text, booleans, each by its natural order. -/
def valLe : SqlValue → SqlValue → Bool
  | .null, _ => true
  | _, .null => false
  | .int a, .int b => decide (a ≤ b)
  | .int _, _ => true
  | _, .int _ => false
  | .text a, .text b => decide (a ≤ b)
  | .text _, _ => true
  | _, .text _ => false
  | .bool a, .bool b => !a || b

/-- Character comparison by code point. -/
def charLt (c d : Char) : Bool := decide (c.toNat < d.toNat)

/-- Lexicographic comparison of character lists. -/
def strLtAux : List Char → List Char → Bool
  | [], [] => false
  | [], _ :: _ => true
  | _ :: _, [] => false
  | c :: cs, d :: ds => if c = d then strLtAux cs ds else charLt c d

/-- Lexicographic text comparison, as TEXT ordering in ORDER BY. -/
def strLt (a b : String) : Bool := strLtAux a.data b.data

/-- The T table of the window scenarios: x (INTEGER PRIMARY KEY) and y
(TEXT), holding (1,aaa), (2,ccc), (3,bbb). -/
def tRows : List (Int × String) := [(1, "aaa"), (2, "ccc"), (3, "bbb")]

/-- Modelled from the spec: ROW_NUMBER() OVER (ORDER BY y) — each row's
number is its 1-based position in the y-ordering of the whole result set
(§4.6, §8 window ordering); keys are distinct here, so this is one plus
the number of rows with a smaller y. -/
def rowNumberByY (rows : List (Int × String)) : List (Int × String × Nat) :=
  rows.map fun r =>
    (r.1, r.2, 1 + (rows.filter fun s => strLt s.2 r.2).length)

/-- Claim C6: over rows (1,aaa), (2,ccc), (3,bbb), row_number ordered by y
assigns 1 to aaa, 2 to bbb and 3 to ccc, and projecting the same query
ordered by x ascending returns the row numbers in the sequence 1, 3, 2. -/
theorem C6_row_number :
    ((rowNumberByY tRows).filter fun t => decide (t.2.1 = "aaa")).map
        (fun t => t.2.2) = [1]
    ∧ ((rowNumberByY tRows).filter fun t => decide (t.2.1 = "bbb")).map
        (fun t => t.2.2) = [2]
    ∧ ((rowNumberByY tRows).filter fun t => decide (t.2.1 = "ccc")).map
        (fun t => t.2.2) = [3]
    ∧ (sortBy (fun a b => decide (a.1 ≤ b.1)) (rowNumberByY tRows)).map
        (fun t => t.2.2) = [1, 3, 2] := by
  refine ⟨by decide, by decide, by decide, by decide⟩

/-- Modelled from the spec: the schema registry — register stores a fresh
identity, accepts an identical re-registration unchanged, and refuses a
structurally different schema for an already-registered identity with a
Definition Error, never replacing the stored schema (§4.1, §8). -/
def register (reg : List (String × TableSchema)) (id : String)
    (s : TableSchema) : List (String × TableSchema) × Option String :=
  match reg.lookup id with
  | none => ((id, s) :: reg, none)
  | some s0 => if s0 = s then (reg, none) else (reg, some "Definition Error")

/-- Claim C7: registering a fresh identity stores the schema; registering
the identical schema again is idempotent — no error, registry unchanged;
registering a structurally different schema under the same identity
reports a Definition Error and leaves the stored schema in place. -/
theorem C7_register_idempotent (reg0 : List (String × TableSchema))
    (id : String) (s s2 : TableSchema)
    (h0 : reg0.lookup id = none) (hne : s2 ≠ s) :
    register reg0 id s = ((id, s) :: reg0, none)
    ∧ register ((id, s) :: reg0) id s = ((id, s) :: reg0, none)
    ∧ register ((id, s) :: reg0) id s2 = ((id, s) :: reg0, some "Definition Error")
    ∧ (register ((id, s) :: reg0) id s2).1.lookup id = some s := by
  have hl : (((id, s) :: reg0) : List (String × TableSchema)).lookup id = some s := by
    simp [List.lookup]
  refine ⟨?_, ?_, ?_, ?_⟩
  · unfold register
    rw [h0]
  · unfold register
    rw [hl]
    simp
  · unfold register
    rw [hl]
    dsimp only
    rw [if_neg fun h => hne h.symm]
  · unfold register
    rw [hl]
    dsimp only
    rw [if_neg fun h => hne h.symm]
    exact hl

/-- Witness for C7: with a concrete one-table registry, identical
re-registration succeeds unchanged and a structurally different schema is
refused while the original stays stored. -/
theorem C7_register_idempotent_witness :
    register [("A", schemaA)] "A" schemaA = ([("A", schemaA)], none)
    ∧ register [("A", schemaA)] "A" ⟨"A", []⟩
        = ([("A", schemaA)], some "Definition Error")
    ∧ (register [("A", schemaA)] "A" ⟨"A", []⟩).1.lookup "A" = some schemaA :=
  ⟨(C7_register_idempotent [] "A" schemaA ⟨"A", []⟩ (by decide) (by decide)).2.1,
   (C7_register_idempotent [] "A" schemaA ⟨"A", []⟩ (by decide) (by decide)).2.2.1,
   (C7_register_idempotent [] "A" schemaA ⟨"A", []⟩ (by decide) (by decide)).2.2.2⟩

/-- The projection column names of a (possibly combined) statement: for a
set operation they are taken from the left operand (§4.5). -/
def statColNames : Statement → List String
  | .simple s => s.colNames
  | .setop _ l _ => statColNames l

/-- The ordering key of a row at a column index; a missing column reads as
NULL. -/
def keyAt (i : Nat) (r : Row) : SqlValue :=
  (r.get? i).getD .null

/-- Modelled from the spec: order_by appended to a statement by column
name — the name is resolved against the left operand's projection and the
final (combined) result is sorted as a whole (§4.5). -/
def orderByName (s : Statement) (n : String) : List Row :=
  sortBy
    (fun r1 r2 =>
      valLe (keyAt ((statColNames s).indexOf n) r1)
        (keyAt ((statColNames s).indexOf n) r2))
    (evalStatement s)

/-- Left operand for the C8 demonstration: column v holding 3 then 1. -/
def demoLeft : Statement := .simple ⟨["v"], [[.int 3], [.int 1]]⟩

/-- Right operand for the C8 demonstration: its only column is named w,
and it holds 2. -/
def demoRight : Statement := .simple ⟨["w"], [[.int 2]]⟩

/-- Claim C8: order_by on a combined statement sorts the final combined
result as a whole — it equals the sort of the set-operation result, with
the ordering name resolved in the left operand's projection — and it is
not the per-operand sort: on the demonstration UNION ALL, ordering by v
yields 1,2,3, not the 1,3,2 of sorting each operand individually. -/
theorem C8_order_by_combined :
    (∀ (k : SetOpKind) (l r : Statement) (n : String),
      orderByName (.setop k l r) n
        = sortBy
            (fun r1 r2 =>
              valLe (keyAt ((statColNames l).indexOf n) r1)
                (keyAt ((statColNames l).indexOf n) r2))
            (evalSetOp k (evalStatement l) (evalStatement r)))
    ∧ orderByName (.setop .unionAll demoLeft demoRight) "v"
        = [[.int 1], [.int 2], [.int 3]]
    ∧ orderByName (.setop .unionAll demoLeft demoRight) "v"
        ≠ orderByName demoLeft "v" ++ orderByName demoRight "v" := by
  refine ⟨?_, by decide, by decide⟩
  intro k l r n
  rfl

/-- A window-frame bound token accepted by the frame builder. -/
inductive FrameBound where
  | unboundedPreceding
  | currentRow
  | unboundedFollowing
  | precedingN (n : Nat)
  | followingN (n : Nat)
deriving DecidableEq, Repr

/-- Modelled from the spec: canonical text of one frame bound token
(§4.6). -/
def renderBound : FrameBound → String
  | .unboundedPreceding => "UNBOUNDED PRECEDING"
  | .currentRow => "CURRENT ROW"
  | .unboundedFollowing => "UNBOUNDED FOLLOWING"
  | .precedingN n => toString n ++ " PRECEDING"
  | .followingN n => toString n ++ " FOLLOWING"

/-- Modelled from the spec: the frame builder canonicalizes a kind (RANGE
or ROWS) and two bound tokens into the frame clause text (§4.6). -/
def renderFrame (kind : String) (b1 b2 : FrameBound) : String :=
  kind ++ " BETWEEN " ++ renderBound b1 ++ " AND " ++ renderBound b2

/-- Modelled from the spec: a named window definition — name, PARTITION BY
columns, ORDER BY columns (as indices), optional canonical frame text
(§4.6 window_def). -/
structure WindowDef where
  name : String
  partitionBy : List Nat
  orderBy : List Nat
  frame : Option String
deriving DecidableEq, Repr

/-- Attach a canonicalized frame clause to a window definition, as the
frame builder's between call does. -/
def frameBetween (w : WindowDef) (kind : String) (b1 b2 : FrameBound) :
    WindowDef :=
  ⟨w.name, w.partitionBy, w.orderBy, some (renderFrame kind b1 b2)⟩

/-- Resolve a named-window reference against the definitions declared via
windows(...) on the SELECT. -/
def resolveWindow (ws : List WindowDef) (n : String) : Option WindowDef :=
  ws.find? fun w => decide (w.name = n)

/-- Strict version of the ORDER BY value order. -/
def valLt : SqlValue → SqlValue → Bool
  | .int x, .int y => decide (x < y)
  | .text x, .text y => strLt x y
  | .bool x, .bool y => !x && y
  | .null, .null => false
  | .null, _ => true
  | _, .null => false
  | .int _, _ => true
  | _, .int _ => false
  | .text _, _ => true
  | _, .text _ => false

/-- Lexicographic strict row order over a list of ORDER BY columns. -/
def rowLtBy : List Nat → Row → Row → Bool
  | [], _, _ => false
  | i :: rest, a, b =>
      if keyAt i a = keyAt i b then rowLtBy rest a b
      else valLt (keyAt i a) (keyAt i b)

/-- The window partition of a row: all rows agreeing with it on every
PARTITION BY column. -/
def partitionOf (rows : List Row) (cols : List Nat) (r : Row) : List Row :=
  rows.filter fun s => cols.all fun i => decide (keyAt i s = keyAt i r)

/-- Index of the first occurrence of a row in a list. -/
def idxOf (r : Row) : List Row → Nat
  | [] => 0
  | a :: l => if a = r then 0 else idxOf r l + 1

/-- Modelled from the spec: RANK() over a window — one plus the number of
rows of the partition strictly preceding the row in the window order
(§4.6). -/
def rankOver (rows : List Row) (w : WindowDef) (r : Row) : Nat :=
  1 + ((partitionOf rows w.partitionBy r).filter fun s =>
        rowLtBy w.orderBy s r).length

/-- Modelled from the spec: ROW_NUMBER() over a window — the 1-based
position of the row in its partition sorted by the window order (§4.6). -/
def rowNumberOver (rows : List Row) (w : WindowDef) (r : Row) : Nat :=
  idxOf r
    (sortBy (fun a b => !rowLtBy w.orderBy b a)
      (partitionOf rows w.partitionBy r)) + 1

/-- The first named window of the scenario: win1, ordered by y (column 1),
with a RANGE frame between unbounded preceding and current row built by
the frame builder. -/
def w1def : WindowDef :=
  frameBetween ⟨"win1", [], [1], none⟩ "RANGE" .unboundedPreceding .currentRow

/-- The second named window of the scenario: win2, partitioned by y
(column 1) and ordered by x (column 0). -/
def w2def : WindowDef := ⟨"win2", [1], [0], none⟩

/-- The T table rows of the window scenario as stored rows. -/
def tRowsR : List Row :=
  [[.int 1, .text "aaa"], [.int 2, .text "ccc"], [.int 3, .text "bbb"]]

/-- Fallback window used when a name fails to resolve. -/
def emptyWindow : WindowDef := ⟨"", [], [], none⟩

/-- Modelled from the spec: the SELECT of the scenario — project x, y, a
ROW_NUMBER call over named window win1 and a RANK call over named window
win2 (both resolved against the declared definitions), then ORDER BY x
ascending (§4.6). -/
def evalWindowSelect (rows : List Row) (ws : List WindowDef) : List Row :=
  sortBy (fun a b => valLe (keyAt 0 a) (keyAt 0 b))
    (rows.map fun r =>
      r ++ [.int (rowNumberOver rows ((resolveWindow ws "win1").getD emptyWindow) r),
            .int (rankOver rows ((resolveWindow ws "win2").getD emptyWindow) r)])

/-- Claim C9: the frame builder canonicalizes bound tokens into the frame
clause text (for RANGE between unbounded preceding and current row, and
for offset bounds); window calls resolve named definitions declared via
windows(...); and on rows (1,aaa), (2,ccc), (3,bbb) the SELECT of
row_number over win1 and rank over win2 ordered by x yields
(1,aaa,1,1), (2,ccc,3,1), (3,bbb,2,1). -/
theorem C9_named_windows_and_frames :
    renderFrame "RANGE" .unboundedPreceding .currentRow
        = "RANGE BETWEEN UNBOUNDED PRECEDING AND CURRENT ROW"
    ∧ renderFrame "ROWS" (.precedingN 1) (.followingN 2)
        = "ROWS BETWEEN 1 PRECEDING AND 2 FOLLOWING"
    ∧ w1def.frame = some "RANGE BETWEEN UNBOUNDED PRECEDING AND CURRENT ROW"
    ∧ resolveWindow [w1def, w2def] "win1" = some w1def
    ∧ resolveWindow [w1def, w2def] "win2" = some w2def
    ∧ evalWindowSelect tRowsR [w1def, w2def]
        = [[.int 1, .text "aaa", .int 1, .int 1],
           [.int 2, .text "ccc", .int 3, .int 1],
           [.int 3, .text "bbb", .int 2, .int 1]] := by
  refine ⟨rfl, rfl, rfl, by decide, by decide, by decide⟩

/-- A parameter of a function handed to the as_func_expr decorator: a
plain parameter with no default, one with a default (None or some other
value), or a var-positional parameter. -/
inductive PyParam where
  | required (n : String)
  | withDefault (n : String) (d : Option Unit)
  | varPos (n : String)
deriving DecidableEq, Repr

/-- Whether a parameter is var-positional. -/
def PyParam.isVarPos : PyParam → Bool
  | .varPos _ => true
  | _ => false

/-- An entry of the generated signature list: a plain name, an
optional-with-None name, or a starred var-positional name. -/
inductive ParaEntry where
  | plain (n : String)
  | optNone (n : String)
  | star (n : String)
deriving DecidableEq, Repr

/-- The parameter-scanning loop of as_func_expr: a var-positional
parameter appends its starred name, sets the None count to -1 and stops;
a parameter with no default appends its name; a parameter defaulting to
None appends it as optional and counts it; any other default raises
RuntimeError. -/
def scanLoop (para : List ParaEntry) (nNone : Int) :
    List PyParam → Except Unit (List ParaEntry × Int)
  | [] => .ok (para, nNone)
  | p :: ps =>
      match p with
      | .varPos n => .ok (para ++ [.star n], -1)
      | .required n => scanLoop (para ++ [.plain n]) nNone ps
      | .withDefault n none => scanLoop (para ++ [.optNone n]) (nNone + 1) ps
      | .withDefault _ (some _) => .error ()

/-- Parameter scan of as_func_expr starting from the empty signature. -/
def scanParams (ps : List PyParam) : Except Unit (List ParaEntry × Int) :=
  scanLoop [] 0 ps

/-- The argument list assembled by the generated wrapper body: walk the
optional parameters in order; at the first one bound to None return the
arguments collected so far, otherwise append its value and continue; when
all are bound return everything. -/
def genCallArgs (req : List String) : List (Option String) → List String
  | [] => req
  | none :: _ => req
  | some a :: rest => genCallArgs (req ++ [a]) rest

/-- Uppercase one ASCII character, as Python upper() acts on ASCII
function names. -/
def upChar (c : Char) : Char :=
  if 97 ≤ c.toNat && c.toNat ≤ 122 then Char.ofNat (c.toNat - 32) else c

/-- Uppercase an ASCII function name. -/
def upName (s : String) : String := ⟨s.data.map upChar⟩

/-- The expression node the wrapper returns: a SQL function call operator
applied to a function name and arguments. -/
inductive FuncExpr where
  | call (name : String) (args : List String)
deriving DecidableEq, Repr

/-- The generated wrapper applied at runtime: it builds the SQL function
call under the wrapped function's name uppercased, with the arguments
assembled by the generated if-chain over the optional parameters. -/
def wrapperCall (fname : String) (req : List String)
    (opts : List (Option String)) : FuncExpr :=
  .call (upName fname) (genCallArgs req opts)

/-- The spec-shaped argument rule: the optional arguments up to, and
excluding, the first one bound to None. -/
def optsBeforeNone : List (Option String) → List String
  | [] => []
  | none :: _ => []
  | some a :: rest => a :: optsBeforeNone rest

/-- The generated if-chain collects exactly the required arguments
followed by the optional arguments preceding the first None. -/
theorem genCallArgs_eq (req : List String) (opts : List (Option String)) :
    genCallArgs req opts = req ++ optsBeforeNone opts := by
  induction opts generalizing req with
  | nil => simp [genCallArgs, optsBeforeNone]
  | cons o rest ih =>
      cases o with
      | none => simp [genCallArgs, optsBeforeNone]
      | some a =>
          simp only [genCallArgs, optsBeforeNone, ih]
          simp

/-- A parameter with a default other than None makes the scan loop raise,
provided no var-positional parameter precedes it. -/
theorem scanLoop_error (pre : List PyParam) (n : String)
    (post : List PyParam) (para : List ParaEntry) (nNone : Int)
    (hp : ∀ q ∈ pre, q.isVarPos = false) :
    scanLoop para nNone (pre ++ PyParam.withDefault n (some ()) :: post)
      = .error () := by
  induction pre generalizing para nNone with
  | nil => rfl
  | cons q rest ih =>
      have hq : q.isVarPos = false := hp q (by simp)
      have hrest : ∀ x ∈ rest, x.isVarPos = false := fun x hx => hp x (by simp [hx])
      cases q with
      | varPos m => simp [PyParam.isVarPos] at hq
      | required m =>
          simpa [scanLoop] using ih (para ++ [.plain m]) nNone hrest
      | withDefault m d =>
          cases d with
          | none =>
              simpa [scanLoop] using ih (para ++ [.optNone m]) (nNone + 1) hrest
          | some u => rfl

/-- Claim C10: for every function accepted by the as_func_expr decorator,
a parameter default other than None (with no var-positional parameter
before it) raises at decoration time, and the generated wrapper builds
the SQL function call under the wrapped name uppercased, passing the
required arguments followed by the optional arguments up to, and
excluding, the first optional parameter bound to None — that parameter
and all later optionals are omitted even when a later one is bound. -/
theorem C10_as_func_expr (pre : List PyParam) (n : String)
    (post : List PyParam) (hp : ∀ q ∈ pre, q.isVarPos = false) :
    scanParams (pre ++ PyParam.withDefault n (some ()) :: post) = .error ()
    ∧ (∀ (fname : String) (req : List String) (opts : List (Option String)),
        wrapperCall fname req opts
          = .call (upName fname) (req ++ optsBeforeNone opts)) := by
  constructor
  · exact scanLoop_error pre n post [] 0 hp
  · intro fname req opts
    unfold wrapperCall
    rw [genCallArgs_eq]

/-- Witness for C10: decorating a function with signature (a, b=1) raises,
and a wrapper named count applied to one required argument and the
optional bindings (some y, None, some z) emits COUNT over the required
argument and the single optional before the None, omitting the bound
optional after it. -/
theorem C10_as_func_expr_witness :
    scanParams [PyParam.required "a", PyParam.withDefault "b" (some ())]
        = .error ()
    ∧ wrapperCall "count" ["x"] [some "y", none, some "z"]
        = .call "COUNT" ["x", "y"] := by
  have h := C10_as_func_expr [PyParam.required "a"] "b" [] (by decide)
  refine ⟨h.1, (h.2 "count" ["x"] [some "y", none, some "z"]).trans (by decide)⟩

end Sqlclz
